import Mathlib

/-!
Shallow embedding of `internal/integration/prosody/prosody.go`: the structured
configuration value, the option combinators (`ConfigFile`, `Ctl`, `ListenC2S`,
`ListenS2S`, `VHost`, `CreateUser`, `Modules`, `TrustAll`) and the
default-assembly policy (`defaultConfig`).  The builder type
(`integration.Cmd`), the address parser (`jid.Parse`) and the file/arg/cert
helpers live outside `src/`; they are modelled from the spec where noted.
-/

namespace Prosody

/-- Structured configuration of the daemon.  Fields mirror the Go `Config`
struct as used by `prosody.go`: `C2SPort`, `S2SPort`, `VHosts`, `Modules`.
Go integer zero values stand for unset ports. -/
structure Config where
  C2SPort : Nat
  S2SPort : Nat
  VHosts : List String
  Modules : List String
deriving DecidableEq, Repr

/-- Go `Config{}`: the zero value of the configuration struct. -/
def emptyConfig : Config := ⟨0, 0, [], []⟩

/-- Modelled from the spec: the address-parsing collaborator's result type
(the `jid` package is outside `src/`), an address split into local part and
domain part. -/
structure JID where
  localpart : String
  domainpart : String
deriving DecidableEq, Repr

/-- The builder's opaque configuration slot (`cmd.Config`, a Go `interface{}`
value): nil, a value of type `Config`, or a value of some other type (on
which the type assertion in `getConfig` would panic). -/
inductive ConfigSlot where
  | unset
  | stored (cfg : Config)
  | wrongType
deriving DecidableEq, Repr

/-- Content of a deferred temp-file write: either the config template rendered
from a configuration value and the config directory, or a static script. -/
inductive FileContent where
  | rendered (cfg : Config) (dir : String)
  | text (s : String)
deriving DecidableEq, Repr

/-- Modelled from the spec: the fixture builder (`integration.Cmd`, outside
`src/`).  It carries the command-line argument list, the opaque config slot,
the recorded default identity, the requested self-signed certificates, the
registered deferred file writes, the registered deferred admin invocations
(full argument vectors), the trace of ports that were bound and closed by the
port-reservation helper, and the config directory. -/
structure Cmd where
  args : List String
  configSlot : ConfigSlot
  user : Option (JID × String)
  certs : List String
  files : List (String × FileContent)
  ctls : List (List String)
  closedPorts : List Nat
  configDir : String
deriving DecidableEq, Repr

/-- Result of applying an option combinator to the builder: a new builder
state, a Go error return (with the builder state at the point of failure), or
a runtime panic. -/
inductive Res where
  | ok (cmd : Cmd)
  | err (msg : String) (cmd : Cmd)
  | panicked (msg : String)
deriving DecidableEq, Repr

/-- Whether a result is a runtime panic. -/
def Res.isPanic : Res → Bool
  | .panicked _ => true
  | _ => false

/-- Whether a result is a successful builder state. -/
def Res.isOk : Res → Bool
  | .ok _ => true
  | _ => false

/-- Whether a result is specifically the out-of-bounds indexing panic of
`cfg.VHosts[0]`. -/
def isIndexOutOfRange : Res → Bool
  | .panicked msg => msg == ("index out of range")
  | _ => false

/-- Observer: the recorded identity of a successful result. -/
def resUser : Res → Option (JID × String)
  | .ok cmd => cmd.user
  | _ => none

/-- The fixed config file name `prosody.cfg.lua`. -/
def cfgFileName : String := "prosody.cfg.lua"

/-- The daemon binary name. -/
def cmdName : String := "prosody"

/-- The explicit-config command-line flag. -/
def configFlag : String := "--config"

/-- Modelled from the spec: `filepath.Join` of the config directory and a file
name. -/
def filepathJoin (dir name : String) : String := dir ++ ("/") ++ name

/-- Modelled from the spec: `integration.TempFile` registers a deferred file
write on the builder. -/
def tempFile (name : String) (content : FileContent) (cmd : Cmd) : Cmd :=
  { cmd with files := cmd.files ++ [(name, content)] }

/-- Modelled from the spec: `integration.Args` appends command-line arguments
to the builder. -/
def addArgs (more : List String) (cmd : Cmd) : Cmd :=
  { cmd with args := cmd.args ++ more }

/-- Modelled from the spec: `integration.User` records the identity and
password as the fixture's default authenticated identity. -/
def setUser (j : JID) (pass : String) (cmd : Cmd) : Cmd :=
  { cmd with user := some (j, pass) }

/-- Modelled from the spec: `integration.Cert` requests a self-signed
certificate for a hostname from the certificate collaborator. -/
def requestCert (host : String) (cmd : Cmd) : Cmd :=
  { cmd with certs := cmd.certs ++ [host] }

/-- Helper for the modelled address parser: split a character list at the
first `@`, returning the parts before and after it, or `none` when no `@`
occurs. -/
def splitAtSign : List Char → Option (List Char × List Char)
  | [] => none
  | c :: rest =>
    if c = ('@' : Char) then some ([], rest)
    else
      match splitAtSign rest with
      | none => none
      | some (l, r) => some (c :: l, r)

/-- Modelled from the spec: `jid.Parse` parses `local@domain` into local part
and domain part and fails on a malformed address (one lacking an `@`). -/
def parseJID (addr : String) : Except String JID :=
  match splitAtSign addr.data with
  | none => .error ("address does not contain @")
  | some (l, r) => .ok ⟨⟨l⟩, ⟨r⟩⟩

/-- `getConfig` from the source: a nil config slot is replaced by the zero
`Config` value, then the slot is read back through a type assertion; a slot
holding a value of another type makes the assertion panic (`none`). -/
def getConfig (cmd : Cmd) : Option (Config × Cmd) :=
  match cmd.configSlot with
  | .unset => some (emptyConfig, { cmd with configSlot := .stored emptyConfig })
  | .stored c => some (c, cmd)
  | .wrongType => none

/-- Observer: the configuration value the next `getConfig` would return, if
any. -/
def currentConfig (cmd : Cmd) : Option Config :=
  match cmd.configSlot with
  | .unset => some emptyConfig
  | .stored c => some c
  | .wrongType => none

/-- `ConfigFile` from the source: store the given configuration in the slot,
register the deferred write of the rendered config file (template applied to
the configuration and the config directory), and append
`--config <dir>/prosody.cfg.lua` to the arguments. -/
def ConfigFile (cfg : Config) (cmd : Cmd) : Res :=
  let cmd1 := { cmd with configSlot := .stored cfg }
  let cmd2 := tempFile cfgFileName (.rendered cfg cmd1.configDir) cmd1
  .ok (addArgs [configFlag, filepathJoin cmd2.configDir cfgFileName] cmd2)

/-- `Ctl` from the source: register a deferred synchronous invocation of
`prosodyctl --config <dir>/prosody.cfg.lua <args...>`. -/
def Ctl (ctlArgs : List String) (cmd : Cmd) : Res :=
  .ok { cmd with
        ctls := cmd.ctls ++
          [[("prosodyctl"), configFlag, filepathJoin cmd.configDir cfgFileName] ++ ctlArgs] }

/-- One port-reservation event of the OS for a single listen call: the bind
either fails or yields an OS-assigned port, and the subsequent close either
succeeds or fails.  Modelled from the spec (the listener methods of the
builder are outside `src/`). -/
structure NetEnv where
  bindPort : Except String Nat
  closeErr : Option String
deriving Repr

/-- `ListenC2S` from the source: bind an ephemeral listener, read its port,
close it, then store the port in the configuration's `C2SPort` field. -/
def ListenC2S (ev : NetEnv) (cmd : Cmd) : Res :=
  match ev.bindPort with
  | .error e => .err e cmd
  | .ok port =>
    match ev.closeErr with
    | some e => .err e cmd
    | none =>
      let cmd1 := { cmd with closedPorts := cmd.closedPorts ++ [port] }
      match getConfig cmd1 with
      | none => .panicked ("interface conversion")
      | some (cfg, cmd2) =>
        .ok { cmd2 with configSlot := .stored { cfg with C2SPort := port } }

/-- `ListenS2S` from the source: bind an ephemeral listener, read its port,
close it, then store the port in the configuration's `S2SPort` field. -/
def ListenS2S (ev : NetEnv) (cmd : Cmd) : Res :=
  match ev.bindPort with
  | .error e => .err e cmd
  | .ok port =>
    match ev.closeErr with
    | some e => .err e cmd
    | none =>
      let cmd1 := { cmd with closedPorts := cmd.closedPorts ++ [port] }
      match getConfig cmd1 with
      | none => .panicked ("interface conversion")
      | some (cfg, cmd2) =>
        .ok { cmd2 with configSlot := .stored { cfg with S2SPort := port } }

/-- `VHost` from the source: append the given hostnames to the configuration's
vhost list. -/
def VHost (hosts : List String) (cmd : Cmd) : Res :=
  match getConfig cmd with
  | none => .panicked ("interface conversion")
  | some (cfg, cmd1) =>
    .ok { cmd1 with configSlot := .stored { cfg with VHosts := cfg.VHosts ++ hosts } }

/-- `Modules` from the source: append each given module name, in order, to the
configuration's module list (a loop of single appends). -/
def Modules (mod : List String) (cmd : Cmd) : Res :=
  match getConfig cmd with
  | none => .panicked ("interface conversion")
  | some (cfg, cmd1) =>
    let ms := mod.foldl (fun acc m => acc ++ [m]) cfg.Modules
    .ok { cmd1 with configSlot := .stored { cfg with Modules := ms } }

/-- `CreateUser` from the source: parse the address (failing on a parse
error before any other effect), register the deferred
`prosodyctl ... register <local> <domain> <password>` invocation, and record
the identity and password on the builder. -/
def CreateUser (addr pass : String) (cmd : Cmd) : Res :=
  match parseJID addr with
  | .error e => .err e cmd
  | .ok j =>
    match Ctl [("register"), j.localpart, j.domainpart, pass] cmd with
    | .ok cmd1 => .ok (setUser j pass cmd1)
    | r => r

/-- The fixed trust-override script written by `TrustAll`, verbatim from the
source. -/
def trustAllLua : String :=
  "\nmodule:set_global();\n\nmodule:hook(\"s2s-check-certificate\", function(event)\n\tlocal session = event.session;\n\tmodule:log(\"info\", \"implicitly trusting presented certificate\");\n\tsession.cert_chain_status = \"valid\";\n\tsession.cert_identity_status = \"valid\";\n\treturn true;\nend);"

/-- `TrustAll` from the source: enable the `trustall` module and register the
deferred write of `mod_trustall.lua` with the fixed script content. -/
def TrustAll (cmd : Cmd) : Res :=
  match Modules [("trustall")] cmd with
  | .ok cmd1 => .ok (tempFile (("mod_") ++ ("trustall") ++ (".lua")) (.text trustAllLua) cmd1)
  | r => r

/-- The vhost-defaulting step of `defaultConfig`: when the vhost list is
empty, append `"localhost"` and request a self-signed certificate for it. -/
def vhostStep (cfg : Config) (cmd : Cmd) : Config × Cmd :=
  if cfg.VHosts.isEmpty then
    ({ cfg with VHosts := cfg.VHosts ++ [("localhost")] }, requestCert ("localhost") cmd)
  else (cfg, cmd)

/-- `defaultConfig` from the source: if the argument list already contains
`--config`, do nothing; otherwise read the configuration, default the vhost
list, store the configuration back, synthesize the default user
`me@<first vhost>` with password `"password"` when no identity is recorded
(the Go expression `cfg.VHosts[0]` panics if the list is empty), and finally
apply `ConfigFile`. -/
def defaultConfig (cmd : Cmd) : Res :=
  if cmd.args.contains configFlag then .ok cmd
  else
    match getConfig cmd with
    | none => .panicked ("interface conversion")
    | some (cfg0, cmd1) =>
      let st := vhostStep cfg0 cmd1
      let cfg := st.1
      let cmd2 := { st.2 with configSlot := .stored cfg }
      match cmd2.user with
      | some _ => ConfigFile cfg cmd2
      | none =>
        match cfg.VHosts with
        | [] => .panicked ("index out of range")
        | v :: _ =>
          match CreateUser (("me@") ++ v) ("password") cmd2 with
          | .ok cmd3 => ConfigFile cfg cmd3
          | r => r

/-- A freshly created fixture builder for a given config directory: the
argument list holds only the daemon binary name and every other field is
empty. -/
def initialCmd (dir : String) : Cmd :=
  { args := [cmdName], configSlot := .unset, user := none, certs := [],
    files := [], ctls := [], closedPorts := [], configDir := dir }

/-- One call in a sequence of `VHost` / `Modules` combinator applications. -/
inductive VMCall where
  | vhost (hs : List String)
  | modcall (ms : List String)
deriving DecidableEq, Repr

/-- Apply one `VHost` / `Modules` call to the builder. -/
def applyVMCall (cmd : Cmd) : VMCall → Res
  | .vhost hs => VHost hs cmd
  | .modcall ms => Modules ms cmd

/-- Apply a sequence of `VHost` / `Modules` calls in order, stopping at the
first failure. -/
def runVMCalls (cmd : Cmd) : List VMCall → Res
  | [] => .ok cmd
  | c :: rest =>
    match applyVMCall cmd c with
    | .ok cmd1 => runVMCalls cmd1 rest
    | r => r

/-- Concatenation, in call order, of the arguments of all `VHost` calls. -/
def vhostArgs : List VMCall → List String
  | [] => []
  | .vhost hs :: rest => hs ++ vhostArgs rest
  | .modcall _ :: rest => vhostArgs rest

/-- Concatenation, in call order, of the arguments of all `Modules` calls. -/
def moduleArgs : List VMCall → List String
  | [] => []
  | .vhost _ :: rest => moduleArgs rest
  | .modcall ms :: rest => ms ++ moduleArgs rest

/-- The configuration value produced by default assembly on a fresh fixture:
the single vhost `"localhost"` and nothing else. -/
def localhostConfig : Config := ⟨0, 0, [("localhost")], []⟩

/-- Claim C1: running `defaultConfig` on a fresh fixture (no caller options)
adds the single vhost `"localhost"`, requests a self-signed certificate for
`"localhost"`, creates the identity `me@localhost` with password
`"password"` (recording it as the fixture's default identity, and registering
the corresponding `prosodyctl ... register` invocation), and renders a config
file whose captured configuration references exactly the one vhost
`"localhost"`. -/
theorem defaultConfig_fresh_fixture (dir : String) :
    defaultConfig (initialCmd dir) =
      .ok { args := [cmdName, configFlag, filepathJoin dir cfgFileName],
            configSlot := .stored localhostConfig,
            user := some (⟨("me"), ("localhost")⟩, ("password")),
            certs := [("localhost")],
            files := [(cfgFileName, .rendered localhostConfig dir)],
            ctls := [[("prosodyctl"), configFlag, filepathJoin dir cfgFileName,
                      ("register"), ("me"), ("localhost"), ("password")]],
            closedPorts := [],
            configDir := dir } := by
  rfl

lemma foldl_push (mod acc : List String) :
    mod.foldl (fun a m => a ++ [m]) acc = acc ++ mod := by
  induction mod generalizing acc with
  | nil => simp
  | cons m rest ih => simp [ih]

lemma VHost_run (cmd : Cmd) (cfg : Config) (hs : List String)
    (h : currentConfig cmd = some cfg) :
    ∃ cmd', VHost hs cmd = .ok cmd' ∧
      currentConfig cmd' = some { cfg with VHosts := cfg.VHosts ++ hs } := by
  cases hslot : cmd.configSlot with
  | unset =>
    simp only [currentConfig, hslot, Option.some.injEq] at h
    subst h
    simp [VHost, getConfig, hslot, currentConfig]
  | stored c =>
    simp only [currentConfig, hslot, Option.some.injEq] at h
    subst h
    simp [VHost, getConfig, hslot, currentConfig]
  | wrongType => simp [currentConfig, hslot] at h

lemma Modules_run (cmd : Cmd) (cfg : Config) (ms : List String)
    (h : currentConfig cmd = some cfg) :
    ∃ cmd', Modules ms cmd = .ok cmd' ∧
      currentConfig cmd' = some { cfg with Modules := cfg.Modules ++ ms } := by
  cases hslot : cmd.configSlot with
  | unset =>
    simp only [currentConfig, hslot, Option.some.injEq] at h
    subst h
    simp [Modules, getConfig, hslot, currentConfig, foldl_push]
  | stored c =>
    simp only [currentConfig, hslot, Option.some.injEq] at h
    subst h
    simp [Modules, getConfig, hslot, currentConfig, foldl_push]
  | wrongType => simp [currentConfig, hslot] at h

lemma runVMCalls_config (calls : List VMCall) (cmd : Cmd) (cfg : Config)
    (h : currentConfig cmd = some cfg) :
    ∃ cmd', runVMCalls cmd calls = .ok cmd' ∧
      currentConfig cmd' = some { cfg with VHosts := cfg.VHosts ++ vhostArgs calls,
                                           Modules := cfg.Modules ++ moduleArgs calls } := by
  induction calls generalizing cmd cfg with
  | nil =>
    refine ⟨cmd, rfl, ?_⟩
    simpa [vhostArgs, moduleArgs] using h
  | cons c rest ih =>
    cases c with
    | vhost hs =>
      obtain ⟨cmd1, h1, h2⟩ := VHost_run cmd cfg hs h
      obtain ⟨cmd', h3, h4⟩ := ih cmd1 _ h2
      refine ⟨cmd', ?_, ?_⟩
      · simp [runVMCalls, applyVMCall, h1, h3]
      · simpa [vhostArgs, moduleArgs, List.append_assoc] using h4
    | modcall ms =>
      obtain ⟨cmd1, h1, h2⟩ := Modules_run cmd cfg ms h
      obtain ⟨cmd', h3, h4⟩ := ih cmd1 _ h2
      refine ⟨cmd', ?_, ?_⟩
      · simp [runVMCalls, applyVMCall, h1, h3]
      · simpa [vhostArgs, moduleArgs, List.append_assoc] using h4

/-- Claim C2: for every finite sequence of `VHost` and `Modules` calls, in any
interleaving, applied to a fresh fixture, every call succeeds and the final
configuration value's `VHosts` list is the concatenation, in call order, of
the arguments of all `VHost` calls, and its `Modules` list is the
concatenation, in call order, of the arguments of all `Modules` calls, with
duplicates preserved. -/
theorem vhost_modules_concat (dir : String) (calls : List VMCall) :
    ∃ cmd', runVMCalls (initialCmd dir) calls = .ok cmd' ∧
      currentConfig cmd' = some ⟨0, 0, vhostArgs calls, moduleArgs calls⟩ := by
  obtain ⟨cmd', h1, h2⟩ := runVMCalls_config calls (initialCmd dir) emptyConfig rfl
  exact ⟨cmd', h1, h2⟩

lemma contains_append_cons (l l' : List String) (a : String) :
    (l ++ a :: l').contains a = true := by
  simp [List.contains_iff_exists_mem_beq]

/-- Claim C3: when the builder's argument list already contains `--config`
(as it does after `ConfigFile` ran, since `ConfigFile` appends that flag),
`defaultConfig` returns success and changes nothing; and after `ConfigFile`
was applied, `defaultConfig` is the identity, so the rendered file captures
exactly the configuration value at the moment `ConfigFile` was called. -/
theorem configFlag_short_circuits :
    (∀ cmd : Cmd, cmd.args.contains configFlag = true → defaultConfig cmd = .ok cmd) ∧
    (∀ (cfg : Config) (cmd : Cmd), ∃ cmd',
      ConfigFile cfg cmd = .ok cmd' ∧
      defaultConfig cmd' = .ok cmd' ∧
      cmd'.files = cmd.files ++ [(cfgFileName, .rendered cfg cmd.configDir)] ∧
      cmd'.configSlot = .stored cfg ∧
      cmd'.user = cmd.user ∧ cmd'.certs = cmd.certs ∧ cmd'.ctls = cmd.ctls) := by
  have hshort : ∀ cmd : Cmd, cmd.args.contains configFlag = true →
      defaultConfig cmd = .ok cmd := by
    intro cmd h
    exact if_pos h
  refine ⟨hshort, ?_⟩
  intro cfg cmd
  refine ⟨_, rfl, ?_, rfl, rfl, rfl, rfl, rfl⟩
  exact hshort _ (contains_append_cons cmd.args [filepathJoin cmd.configDir cfgFileName] configFlag)

/-- Witness for C3 at a concrete fixture whose arguments already contain the
explicit-config flag. -/
theorem configFlag_short_circuits_witness :
    defaultConfig { args := [("--config")], configSlot := .unset, user := none,
                    certs := [], files := [], ctls := [], closedPorts := [],
                    configDir := ("d") } =
      .ok { args := [("--config")], configSlot := .unset, user := none,
            certs := [], files := [], ctls := [], closedPorts := [],
            configDir := ("d") } :=
  configFlag_short_circuits.1 _ (by decide)

lemma splitAtSign_of_not_mem (l : List Char) (h : ('@' : Char) ∉ l) :
    splitAtSign l = none := by
  induction l with
  | nil => rfl
  | cons c rest ih =>
    simp only [List.mem_cons, not_or] at h
    have hc : ¬c = ('@' : Char) := fun hc => h.1 hc.symm
    simp [splitAtSign, hc, ih h.2]

lemma splitAtSign_me (l : List Char) :
    splitAtSign (('m') :: ('e') :: ('@') :: l) = some ([('m'), ('e')], l) := rfl

/-- Claim C4: `CreateUser` fails with a parse error when the address lacks an
`@`, returning the builder unchanged (no admin invocation registered, no
identity recorded); on `me@localhost` it registers the deferred admin
invocation `prosodyctl --config <rendered-config-path> register me localhost
<password>` and records the parsed identity and password as the fixture's
default identity. -/
theorem CreateUser_parse_and_register :
    (∀ (addr pass : String) (cmd : Cmd), ('@' : Char) ∉ addr.data →
      CreateUser addr pass cmd = .err ("address does not contain @") cmd) ∧
    (∀ (pass : String) (cmd : Cmd),
      CreateUser ("me@localhost") pass cmd =
        .ok { cmd with
              ctls := cmd.ctls ++ [[("prosodyctl"), configFlag,
                filepathJoin cmd.configDir cfgFileName,
                ("register"), ("me"), ("localhost"), pass]],
              user := some (⟨("me"), ("localhost")⟩, pass) }) := by
  constructor
  · intro addr pass cmd h
    simp [CreateUser, parseJID, splitAtSign_of_not_mem addr.data h]
  · intro pass cmd
    rfl

/-- Witness for C4: the malformed address `"melocalhost"` makes `CreateUser`
fail with the parse error and leave the fixture untouched. -/
theorem CreateUser_parse_and_register_witness :
    CreateUser ("melocalhost") ("password") (initialCmd ("d")) =
      .err ("address does not contain @") (initialCmd ("d")) :=
  CreateUser_parse_and_register.1 _ _ _ (by decide)

lemma CreateUser_me (v pass : String) (cmd : Cmd) :
    CreateUser (("me@") ++ v) pass cmd =
      .ok { cmd with
            ctls := cmd.ctls ++ [[("prosodyctl"), configFlag,
              filepathJoin cmd.configDir cfgFileName,
              ("register"), ("me"), v, pass]],
            user := some (⟨("me"), v⟩, pass) } := rfl

lemma CreateUser_me_localhost (pass : String) (cmd : Cmd) :
    CreateUser ("me@localhost") pass cmd =
      .ok { cmd with
            ctls := cmd.ctls ++ [[("prosodyctl"), configFlag,
              filepathJoin cmd.configDir cfgFileName,
              ("register"), ("me"), ("localhost"), pass]],
            user := some (⟨("me"), ("localhost")⟩, pass) } := rfl

/-- Claim C5: `defaultConfig` only writes fields still at their zero/empty
value.  If it succeeds on a builder whose slot holds `cfg`, then the final
configuration preserves `C2SPort`, `S2SPort` and `Modules` in every case,
preserves `VHosts` whenever it was non-empty, and a previously recorded
identity stays recorded unchanged. -/
theorem defaultConfig_preserves_caller_fields (cmd cmd' : Cmd) (cfg : Config)
    (hslot : cmd.configSlot = ConfigSlot.stored cfg)
    (hok : defaultConfig cmd = .ok cmd') :
    (currentConfig cmd').map Config.C2SPort = some cfg.C2SPort ∧
    (currentConfig cmd').map Config.S2SPort = some cfg.S2SPort ∧
    (currentConfig cmd').map Config.Modules = some cfg.Modules ∧
    (cfg.VHosts ≠ [] → (currentConfig cmd').map Config.VHosts = some cfg.VHosts) ∧
    (∀ u, cmd.user = some u → cmd'.user = some u) := by
  by_cases hflag : cmd.args.contains configFlag = true
  · rw [defaultConfig, if_pos hflag] at hok
    obtain rfl : cmd = cmd' := Res.ok.inj hok
    refine ⟨?_, ?_, ?_, fun _ => ?_, fun u hu => hu⟩ <;>
      simp [currentConfig, hslot]
  · rw [defaultConfig, if_neg hflag, getConfig, hslot] at hok
    cases hV : cfg.VHosts with
    | nil =>
      simp only [vhostStep, hV, List.isEmpty_nil, if_pos] at hok
      cases hu : cmd.user with
      | some u =>
        simp only [requestCert, hu, ConfigFile, tempFile, addArgs] at hok
        obtain rfl := Res.ok.inj hok
        exact ⟨rfl, rfl, rfl, fun hne => absurd rfl hne, fun u' hu' => by
          simpa [hu] using hu'⟩
      | none =>
        simp only [requestCert, hu, List.nil_append, CreateUser_me,
          ConfigFile, tempFile, addArgs] at hok
        obtain rfl := Res.ok.inj hok
        exact ⟨rfl, rfl, rfl, fun hne => absurd rfl hne, fun u' hu' => by
          simp [hu] at hu'⟩
    | cons v vs =>
      simp only [vhostStep, hV, List.isEmpty_cons, if_neg, Bool.false_eq_true,
        not_false_iff, if_false] at hok
      cases hu : cmd.user with
      | some u =>
        simp only [hu, ConfigFile, tempFile, addArgs] at hok
        obtain rfl := Res.ok.inj hok
        exact ⟨rfl, rfl, rfl, fun _ => by simp [currentConfig, hV], fun u' hu' => by
          simpa [hu] using hu'⟩
      | none =>
        simp only [hu, CreateUser_me, ConfigFile, tempFile, addArgs] at hok
        obtain rfl := Res.ok.inj hok
        exact ⟨rfl, rfl, rfl, fun _ => by simp [currentConfig, hV], fun u' hu' => by
          simp [hu] at hu'⟩

/-- Witness for C5 at a concrete fixture whose configuration and identity
were fully caller-supplied: default assembly leaves every such field
unchanged. -/
theorem defaultConfig_preserves_caller_fields_witness :
    (currentConfig { args := [("prosody"), ("--config"),
                       filepathJoin ("d") cfgFileName],
                     configSlot := .stored ⟨(1), (2), [("h")], [("m")]⟩,
                     user := some (⟨("a"), ("b")⟩, ("p")),
                     certs := [],
                     files := [(cfgFileName,
                       .rendered ⟨(1), (2), [("h")], [("m")]⟩ ("d"))],
                     ctls := [], closedPorts := [],
                     configDir := ("d") }).map Config.C2SPort = some (1) ∧
    ({ args := [("prosody"), ("--config"), filepathJoin ("d") cfgFileName],
       configSlot := ConfigSlot.stored ⟨(1), (2), [("h")], [("m")]⟩,
       user := some (⟨("a"), ("b")⟩, ("p")),
       certs := [],
       files := [(cfgFileName, .rendered ⟨(1), (2), [("h")], [("m")]⟩ ("d"))],
       ctls := [], closedPorts := [], configDir := ("d") } : Cmd).user =
      some (⟨("a"), ("b")⟩, ("p")) := by
  have h := defaultConfig_preserves_caller_fields
    { args := [("prosody")], configSlot := .stored ⟨(1), (2), [("h")], [("m")]⟩,
      user := some (⟨("a"), ("b")⟩, ("p")), certs := [], files := [], ctls := [],
      closedPorts := [], configDir := ("d") }
    { args := [("prosody"), ("--config"), filepathJoin ("d") cfgFileName],
      configSlot := .stored ⟨(1), (2), [("h")], [("m")]⟩,
      user := some (⟨("a"), ("b")⟩, ("p")), certs := [],
      files := [(cfgFileName, .rendered ⟨(1), (2), [("h")], [("m")]⟩ ("d"))],
      ctls := [], closedPorts := [], configDir := ("d") }
    ⟨(1), (2), [("h")], [("m")]⟩ rfl rfl
  exact ⟨h.1, h.2.2.2.2 _ rfl⟩

/-- Counterexample to C6: on a fixture whose caller supplied the single vhost
`"example.com"` and no user, `defaultConfig` synthesizes the identity
`me@example.com` — its domain part is the caller's first vhost, not the
default hostname `"localhost"`. -/
theorem default_user_not_default_hostname_counterexample :
    defaultConfig { args := [("prosody")],
                    configSlot := .stored ⟨0, 0, [("example.com")], []⟩,
                    user := none, certs := [], files := [], ctls := [],
                    closedPorts := [], configDir := ("d") } =
      .ok { args := [("prosody"), ("--config"), filepathJoin ("d") cfgFileName],
            configSlot := .stored ⟨0, 0, [("example.com")], []⟩,
            user := some (⟨("me"), ("example.com")⟩, ("password")),
            certs := [],
            files := [(cfgFileName, .rendered ⟨0, 0, [("example.com")], []⟩ ("d"))],
            ctls := [[("prosodyctl"), ("--config"), filepathJoin ("d") cfgFileName,
                      ("register"), ("me"), ("example.com"), ("password")]],
            closedPorts := [], configDir := ("d") } ∧
    ("example.com") ≠ ("localhost") := ⟨rfl, by decide⟩

/-- Claim C6 as amended: whenever `defaultConfig` finds no recorded identity
(and the explicit-config flag is absent), it synthesizes the identity
`me@<first vhost after the vhost-defaulting step>` with the fixed password
`"password"`; that domain part equals the default hostname `"localhost"`
exactly when the caller supplied no vhosts, and otherwise equals the caller's
first vhost. -/
theorem default_user_domain_is_first_vhost (cmd : Cmd) (cfg : Config)
    (hslot : cmd.configSlot = ConfigSlot.stored cfg)
    (hflag : ¬cmd.args.contains configFlag = true)
    (huser : cmd.user = none) :
    resUser (defaultConfig cmd) =
      some (⟨("me"), (vhostStep cfg cmd).1.VHosts.headD ("")⟩, ("password")) ∧
    (cfg.VHosts = [] → (vhostStep cfg cmd).1.VHosts.headD ("") = ("localhost")) ∧
    (cfg.VHosts ≠ [] →
      (vhostStep cfg cmd).1.VHosts.headD ("") = cfg.VHosts.headD ("")) := by
  rw [defaultConfig, if_neg hflag, getConfig, hslot]
  cases hV : cfg.VHosts with
  | nil =>
    simp only [vhostStep, hV, List.isEmpty_nil, if_pos, List.nil_append,
      requestCert, huser, CreateUser_me, ConfigFile, tempFile, addArgs]
    exact ⟨rfl, fun _ => rfl, fun hne => absurd rfl hne⟩
  | cons v vs =>
    simp only [vhostStep, hV, List.isEmpty_cons, Bool.false_eq_true,
      not_false_iff, if_false, huser, CreateUser_me, ConfigFile, tempFile,
      addArgs]
    exact ⟨rfl, fun he => absurd he (by simp), by simp⟩

/-- Witness for the amended C6 at a fixture with caller vhost
`"example.com"` and no recorded identity. -/
theorem default_user_domain_is_first_vhost_witness :
    resUser (defaultConfig { args := [("prosody")],
                             configSlot := .stored ⟨0, 0, [("example.com")], []⟩,
                             user := none, certs := [], files := [], ctls := [],
                             closedPorts := [], configDir := ("d") }) =
      some (⟨("me"),
        (vhostStep ⟨0, 0, [("example.com")], []⟩
          { args := [("prosody")],
            configSlot := .stored ⟨0, 0, [("example.com")], []⟩,
            user := none, certs := [], files := [], ctls := [],
            closedPorts := [], configDir := ("d") }).1.VHosts.headD ("")⟩,
        ("password")) := by
  have h := default_user_domain_is_first_vhost
    { args := [("prosody")], configSlot := .stored ⟨0, 0, [("example.com")], []⟩,
      user := none, certs := [], files := [], ctls := [], closedPorts := [],
      configDir := ("d") }
    ⟨0, 0, [("example.com")], []⟩ rfl (by decide) rfl
  exact h.1

/-- Counterexample to C7: nothing in the code prevents the OS from assigning
the same ephemeral port to both calls — the first listener is closed before
the second one is opened.  Here both `ListenC2S` calls succeed with port
`5000`, so the two yielded ports are not distinct. -/
theorem listen_twice_counterexample :
    ListenC2S ⟨.ok (5000), none⟩ (initialCmd ("d")) =
      .ok { args := [("prosody")], configSlot := .stored ⟨(5000), 0, [], []⟩,
            user := none, certs := [], files := [], ctls := [],
            closedPorts := [(5000)], configDir := ("d") } ∧
    ListenC2S ⟨.ok (5000), none⟩
        { args := [("prosody")], configSlot := .stored ⟨(5000), 0, [], []⟩,
          user := none, certs := [], files := [], ctls := [],
          closedPorts := [(5000)], configDir := ("d") } =
      .ok { args := [("prosody")], configSlot := .stored ⟨(5000), 0, [], []⟩,
            user := none, certs := [], files := [], ctls := [],
            closedPorts := [(5000), (5000)], configDir := ("d") } ∧
    ¬((5000 : Nat) ≠ (5000 : Nat)) := ⟨rfl, rfl, by decide⟩

/-- Claim C7 as amended: calling `ListenC2S` (or `ListenS2S`) twice, both
calls succeeding with OS-assigned ports `p` then `q`, closes each listener
before its port is stored (both ports are appended to the closed-port trace),
stores `p` in the corresponding field after the first call, and retains only
`q` there after the second call; the two ports need not be distinct. -/
theorem listen_retains_last_port (p q : Nat) (cmd : Cmd) (cfg : Config)
    (hslot : cmd.configSlot = ConfigSlot.stored cfg) :
    ListenC2S ⟨.ok p, none⟩ cmd =
      .ok { cmd with closedPorts := cmd.closedPorts ++ [p],
                     configSlot := .stored { cfg with C2SPort := p } } ∧
    ListenC2S ⟨.ok q, none⟩
        { cmd with closedPorts := cmd.closedPorts ++ [p],
                   configSlot := .stored { cfg with C2SPort := p } } =
      .ok { cmd with closedPorts := (cmd.closedPorts ++ [p]) ++ [q],
                     configSlot := .stored { cfg with C2SPort := q } } ∧
    ListenS2S ⟨.ok p, none⟩ cmd =
      .ok { cmd with closedPorts := cmd.closedPorts ++ [p],
                     configSlot := .stored { cfg with S2SPort := p } } ∧
    ListenS2S ⟨.ok q, none⟩
        { cmd with closedPorts := cmd.closedPorts ++ [p],
                   configSlot := .stored { cfg with S2SPort := p } } =
      .ok { cmd with closedPorts := (cmd.closedPorts ++ [p]) ++ [q],
                     configSlot := .stored { cfg with S2SPort := q } } := by
  refine ⟨?_, ?_, ?_, ?_⟩ <;>
    simp [ListenC2S, ListenS2S, getConfig, hslot]

/-- Witness for the amended C7 at concrete ports `1` then `2` on a fresh
stored configuration. -/
theorem listen_retains_last_port_witness :
    ListenC2S ⟨.ok (1), none⟩
        { args := [("prosody")], configSlot := .stored emptyConfig,
          user := none, certs := [], files := [], ctls := [],
          closedPorts := [], configDir := ("d") } =
      .ok { args := [("prosody")], configSlot := .stored ⟨(1), 0, [], []⟩,
            user := none, certs := [], files := [], ctls := [],
            closedPorts := [(1)], configDir := ("d") } ∧
    ListenC2S ⟨.ok (2), none⟩
        { args := [("prosody")], configSlot := .stored ⟨(1), 0, [], []⟩,
          user := none, certs := [], files := [], ctls := [],
          closedPorts := [(1)], configDir := ("d") } =
      .ok { args := [("prosody")], configSlot := .stored ⟨(2), 0, [], []⟩,
            user := none, certs := [], files := [], ctls := [],
            closedPorts := [(1), (2)], configDir := ("d") } := by
  have h := listen_retains_last_port (1) (2)
    { args := [("prosody")], configSlot := .stored emptyConfig,
      user := none, certs := [], files := [], ctls := [],
      closedPorts := [], configDir := ("d") } emptyConfig rfl
  exact ⟨h.1, h.2.1⟩

/-- Claim C8: on any builder state (whatever combinators ran before),
`TrustAll` appends exactly one module entry `"trustall"` to the
configuration's module list and registers exactly one deferred write of the
side file `mod_trustall.lua` with the fixed, static trust-override script;
no other builder field changes. -/
theorem TrustAll_effect (cmd : Cmd) (cfg : Config)
    (h : currentConfig cmd = some cfg) :
    TrustAll cmd =
      .ok { cmd with
            configSlot := .stored { cfg with Modules := cfg.Modules ++ [("trustall")] },
            files := cmd.files ++ [(("mod_trustall.lua"), .text trustAllLua)] } := by
  cases hslot : cmd.configSlot with
  | unset =>
    simp only [currentConfig, hslot, Option.some.injEq] at h
    subst h
    simp [TrustAll, Modules, getConfig, hslot, tempFile, foldl_push]
  | stored c =>
    simp only [currentConfig, hslot, Option.some.injEq] at h
    subst h
    simp [TrustAll, Modules, getConfig, hslot, tempFile, foldl_push]
  | wrongType => simp [currentConfig, hslot] at h

/-- Witness for C8 on a fresh fixture. -/
theorem TrustAll_effect_witness :
    TrustAll (initialCmd ("d")) =
      .ok { args := [("prosody")],
            configSlot := .stored ⟨0, 0, [], [("trustall")]⟩,
            user := none, certs := [],
            files := [(("mod_trustall.lua"), .text trustAllLua)],
            ctls := [], closedPorts := [], configDir := ("d") } :=
  TrustAll_effect (initialCmd ("d")) emptyConfig rfl

lemma defaultConfig_ok_of_slot (cmd : Cmd)
    (h : cmd.configSlot ≠ ConfigSlot.wrongType) :
    (defaultConfig cmd).isOk = true := by
  by_cases hflag : cmd.args.contains configFlag = true
  · rw [defaultConfig, if_pos hflag]; rfl
  · cases hslot : cmd.configSlot with
    | wrongType => exact absurd hslot h
    | unset =>
      rw [defaultConfig, if_neg hflag, getConfig, hslot]
      cases hu : cmd.user with
      | some u =>
        simp [vhostStep, emptyConfig, requestCert, hu, ConfigFile, tempFile,
          addArgs, Res.isOk]
      | none =>
        simp [vhostStep, emptyConfig, requestCert, hu, CreateUser_me,
          CreateUser_me_localhost, ConfigFile, tempFile, addArgs, Res.isOk]
    | stored cfg =>
      rw [defaultConfig, if_neg hflag, getConfig, hslot]
      cases hV : cfg.VHosts with
      | nil =>
        cases hu : cmd.user with
        | some u =>
          simp [vhostStep, hV, requestCert, hu, ConfigFile, tempFile, addArgs,
            Res.isOk]
        | none =>
          simp [vhostStep, hV, requestCert, hu, CreateUser_me,
            CreateUser_me_localhost, ConfigFile, tempFile, addArgs, Res.isOk]
      | cons v vs =>
        cases hu : cmd.user with
        | some u =>
          simp [vhostStep, hV, hu, ConfigFile, tempFile, addArgs, Res.isOk]
        | none =>
          simp [vhostStep, hV, hu, CreateUser_me, ConfigFile, tempFile,
            addArgs, Res.isOk]

lemma isPanic_false_of_isOk (r : Res) (h : r.isOk = true) : r.isPanic = false := by
  cases r <;> simp_all [Res.isOk, Res.isPanic]

lemma isIndexOutOfRange_false_of_isOk (r : Res) (h : r.isOk = true) :
    isIndexOutOfRange r = false := by
  cases r <;> simp_all [Res.isOk, isIndexOutOfRange]

/-- Claim C9: when the builder's config slot is nil or holds a `Config`
value, the type assertion in `getConfig` succeeds, and none of the
structured-configuration operations (`VHost`, `Modules`, `ListenC2S`,
`ListenS2S`, `TrustAll`, `defaultConfig`) panics. -/
theorem getConfig_type_assertion_safe (cmd : Cmd)
    (h : cmd.configSlot = ConfigSlot.unset ∨
         ∃ c, cmd.configSlot = ConfigSlot.stored c) :
    (getConfig cmd).isSome = true ∧
    (∀ hs, (VHost hs cmd).isPanic = false) ∧
    (∀ ms, (Modules ms cmd).isPanic = false) ∧
    (∀ ev, (ListenC2S ev cmd).isPanic = false) ∧
    (∀ ev, (ListenS2S ev cmd).isPanic = false) ∧
    (TrustAll cmd).isPanic = false ∧
    (defaultConfig cmd).isPanic = false := by
  have hw : cmd.configSlot ≠ ConfigSlot.wrongType := by
    rcases h with h | ⟨c, h⟩ <;> simp [h]
  have hlc2s : ∀ ev, (ListenC2S ev cmd).isPanic = false := by
    intro ev
    rcases hev : ev.bindPort with e | port
    · simp [ListenC2S, hev, Res.isPanic]
    · rcases hce : ev.closeErr with _ | e
      · rcases h with hs | ⟨c, hs⟩ <;>
          simp [ListenC2S, hev, hce, getConfig, hs, Res.isPanic]
      · simp [ListenC2S, hev, hce, Res.isPanic]
  have hls2s : ∀ ev, (ListenS2S ev cmd).isPanic = false := by
    intro ev
    rcases hev : ev.bindPort with e | port
    · simp [ListenS2S, hev, Res.isPanic]
    · rcases hce : ev.closeErr with _ | e
      · rcases h with hs | ⟨c, hs⟩ <;>
          simp [ListenS2S, hev, hce, getConfig, hs, Res.isPanic]
      · simp [ListenS2S, hev, hce, Res.isPanic]
  refine ⟨?_, ?_, ?_, hlc2s, hls2s, ?_, ?_⟩
  · rcases h with hs | ⟨c, hs⟩ <;> simp [getConfig, hs]
  · intro hs
    rcases h with hs' | ⟨c, hs'⟩ <;> simp [VHost, getConfig, hs', Res.isPanic]
  · intro ms
    rcases h with hs' | ⟨c, hs'⟩ <;> simp [Modules, getConfig, hs', Res.isPanic]
  · rcases h with hs | ⟨c, hs⟩ <;>
      simp [TrustAll, Modules, getConfig, hs, tempFile, Res.isPanic]
  · exact isPanic_false_of_isOk _ (defaultConfig_ok_of_slot cmd hw)

/-- Witness for C9 on a fresh fixture (nil config slot) with concrete
arguments for every operation. -/
theorem getConfig_type_assertion_safe_witness :
    (getConfig (initialCmd ("d"))).isSome = true ∧
    (VHost [("h")] (initialCmd ("d"))).isPanic = false ∧
    (Modules [("m")] (initialCmd ("d"))).isPanic = false ∧
    (ListenC2S ⟨.ok (1), none⟩ (initialCmd ("d"))).isPanic = false ∧
    (ListenS2S ⟨.ok (2), none⟩ (initialCmd ("d"))).isPanic = false ∧
    (TrustAll (initialCmd ("d"))).isPanic = false ∧
    (defaultConfig (initialCmd ("d"))).isPanic = false := by
  have h := getConfig_type_assertion_safe (initialCmd ("d")) (Or.inl rfl)
  exact ⟨h.1, h.2.1 _, h.2.2.1 _, h.2.2.2.1 _, h.2.2.2.2.1 _,
    h.2.2.2.2.2.1, h.2.2.2.2.2.2⟩

/-- Claim C10: the indexing expression `cfg.VHosts[0]` inside `defaultConfig`
is always in bounds: the vhost-defaulting step always leaves a non-empty
vhost list (it appends `"localhost"` exactly when the list was empty), so
`defaultConfig` can never return the out-of-bounds indexing panic, whatever
the builder state. -/
theorem vhost_index_in_bounds :
    (∀ (cfg : Config) (cmd : Cmd), (vhostStep cfg cmd).1.VHosts.isEmpty = false) ∧
    (∀ cmd : Cmd, isIndexOutOfRange (defaultConfig cmd) = false) := by
  constructor
  · intro cfg cmd
    by_cases hV : cfg.VHosts.isEmpty
    · simp [vhostStep, hV, List.isEmpty_iff]
    · simp [vhostStep, hV]
  · intro cmd
    by_cases hflag : cmd.args.contains configFlag = true
    · rw [defaultConfig, if_pos hflag]; rfl
    · cases hslot : cmd.configSlot with
      | wrongType => rw [defaultConfig, if_neg hflag, getConfig, hslot]; rfl
      | unset =>
        exact isIndexOutOfRange_false_of_isOk _
          (defaultConfig_ok_of_slot cmd (by simp [hslot]))
      | stored cfg =>
        exact isIndexOutOfRange_false_of_isOk _
          (defaultConfig_ok_of_slot cmd (by simp [hslot]))

end Prosody
